import Mathlib

/-!
Shallow embedding of virtkvm (src/virtkvm/__init__.py): the switch-state
engine (Virt device reconciliation, Switch.switch_to_host / switch_to_guest),
the evdev hotkey loop, and the `/switch` HTTP endpoint.

Hypervisor state is modelled as the domain's hostdev list; `attachDevice`
appends the described hostdev, `detachDevice` removes the first matching
occurrence.  All externally visible actions (display calls, shell commands,
attach / detach requests, switch invocations) are recorded as effect lists so
that theorems can talk about which requests a call issues.
-/

/-- One `<hostdev>` entry of the domain XML: its `@type` (the code only keeps
entries with `@type == "usb"`) and the parsed vendor / product ids. -/
structure Hostdev where
  usb : Bool
  vendor : Nat
  product : Nat
deriving DecidableEq, Repr

/-- One entry of `data["devices"]` in the YAML configuration: vendor id,
product id, and the raw `optional` key (absent keys modelled as `none`,
`d.get("optional", False)` reads it with default `false`). -/
structure DeviceEntry where
  vendor : Nat
  product : Nat
  optionalKey : Option Bool
deriving DecidableEq, Repr

/-- One entry of `data["displays"]`: bus, feature code and the two
input-select values. -/
structure Display where
  bus : Nat
  feature : Nat
  host : Nat
  guest : Nat
deriving DecidableEq, Repr

/-- `HTTPConfig`: the parts the `/switch` endpoint reads (`is_secure`,
`secret`). -/
structure HTTPConfig where
  is_secure : Bool
  secret : String
deriving DecidableEq, Repr

/-- `Config`: the fields the switch engine and endpoint consume.  The two
device lists of the Python constructor are derived below from `deviceData`
exactly as `Config.__init__` derives them from `data["devices"]`. -/
structure Config where
  http : HTTPConfig
  deviceData : List DeviceEntry
  displays : List Display
  host_commands : List String
  guest_commands : List String

/-- `self.devices = [(d["vendor"], d["product"]) for d in data["devices"]]` -/
def Config.devices (c : Config) : List (Nat × Nat) :=
  c.deviceData.map (fun d => (d.vendor, d.product))

/-- `self.devices_essential = [(d["vendor"], d["product"]) for d in
data["devices"] if not d.get("optional", False)]` -/
def Config.devices_essential (c : Config) : List (Nat × Nat) :=
  (c.deviceData.filter (fun d => !(d.optionalKey.getD false))).map
    (fun d => (d.vendor, d.product))

/-- `Virt.get_devices`: the domain's hostdev list filtered to
`@type == "usb"`. -/
def get_devices (vm : List Hostdev) : List Hostdev :=
  vm.filter (fun d => d.usb)

/-- `Virt.get_device_ids`: the (vendor, product) identity of a hostdev. -/
def get_device_ids (d : Hostdev) : Nat × Nat :=
  (d.vendor, d.product)

/-- `Virt.get_device_by_ids`: first live USB hostdev with the given identity,
`none` when absent. -/
def get_device_by_ids (vm : List Hostdev) (ids : Nat × Nat) : Option Hostdev :=
  (get_devices vm).find? (fun d => get_device_ids d == ids)

/-- The hostdev XML fragment `attach_devices` builds for a missing identity
(`@mode="subsystem" @type="usb"` with the hex vendor / product ids; hex
round-trips, so the ids are kept as numbers). -/
def mk_hostdev (ids : Nat × Nat) : Hostdev :=
  { usb := true, vendor := ids.1, product := ids.2 }

/-- `Virt.attach_devices`: for each requested identity, re-query the live
list (`get_device_by_ids`); when absent, call `attachDevice` with a fresh
hostdev fragment.  Returns the final hostdev list and the identities for
which an attach request was issued, in order. -/
def attach_devices (vm : List Hostdev) :
    List (Nat × Nat) → List Hostdev × List (Nat × Nat)
  | [] => (vm, [])
  | ids :: rest =>
    match get_device_by_ids vm ids with
    | some _ => attach_devices vm rest
    | none =>
      let r := attach_devices (vm ++ [mk_hostdev ids]) rest
      (r.1, ids :: r.2)

/-- The body of `Virt.detach_devices`' `for` loop: walk the snapshot taken by
the single `self.get_devices()` call, detaching every snapshot entry whose
identity is in `devs` from the (mutating) domain.  Returns the final hostdev
list and the detach requests issued, in order. -/
def detach_loop (devs : List (Nat × Nat)) :
    List Hostdev → List Hostdev → List Hostdev × List Hostdev
  | vm, [] => (vm, [])
  | vm, dev :: rest =>
    if get_device_ids dev ∈ devs then
      let r := detach_loop devs (vm.erase dev) rest
      (r.1, dev :: r.2)
    else detach_loop devs vm rest

/-- `Virt.detach_devices`: iterate over the one-shot `get_devices()` snapshot,
detaching the entries whose identity is in `devs`. -/
def detach_devices (vm : List Hostdev) (devs : List (Nat × Nat)) :
    List Hostdev × List Hostdev :=
  detach_loop devs vm (get_devices vm)

/-- An externally visible action of the switch engine: a `ddcutil` display
call, a shell command, an `attachDevice` request or a `detachDevice`
request. -/
inductive Effect where
  | display (bus feature value : Nat)
  | shell (c : String)
  | attachReq (ids : Nat × Nat)
  | detachReq (dev : Hostdev)
deriving DecidableEq, Repr

/-- The attach requests among an effect list. -/
def attach_requests (fx : List Effect) : List (Nat × Nat) :=
  fx.filterMap (fun e => match e with | .attachReq ids => some ids | _ => none)

/-- The detach requests among an effect list. -/
def detach_requests (fx : List Effect) : List Hostdev :=
  fx.filterMap (fun e => match e with | .detachReq d => some d | _ => none)

/-- `Switch.switch_to_host`: display calls with the host input value, host
commands, then `detach_devices` of the full (or essential-only) configured
list.  Returns the final hostdev list and the effects issued. -/
def switch_to_host (c : Config) (skip_optional : Bool) (vm : List Hostdev) :
    List Hostdev × List Effect :=
  let dfx := c.displays.map (fun d => Effect.display d.bus d.feature d.host)
  let cfx := c.host_commands.map Effect.shell
  let r := detach_devices vm
    (if skip_optional then c.devices_essential else c.devices)
  (r.1, dfx ++ cfx ++ r.2.map Effect.detachReq)

/-- `Switch.switch_to_guest`: display calls with the guest input value, guest
commands, then `attach_devices` of the full (or essential-only) configured
list.  Returns the final hostdev list and the effects issued. -/
def switch_to_guest (c : Config) (skip_optional : Bool) (vm : List Hostdev) :
    List Hostdev × List Effect :=
  let dfx := c.displays.map (fun d => Effect.display d.bus d.feature d.guest)
  let cfx := c.guest_commands.map Effect.shell
  let r := attach_devices vm
    (if skip_optional then c.devices_essential else c.devices)
  (r.1, dfx ++ cfx ++ r.2.map Effect.attachReq)

/-- The identities of the live USB devices of a hostdev list. -/
def liveIds (vm : List Hostdev) : List (Nat × Nat) :=
  (get_devices vm).map get_device_ids

/-! ## Hotkey monitor (`evdev_loop`) -/

/-- `evdev.ecodes.KEY_LEFTCTRL` -/
def KEY_LEFTCTRL : Nat := 29
/-- `evdev.ecodes.KEY_RIGHTCTRL` -/
def KEY_RIGHTCTRL : Nat := 97
/-- `evdev.ecodes.KEY_LEFTMETA` -/
def KEY_LEFTMETA : Nat := 125
/-- `evdev.ecodes.KEY_RIGHTMETA` -/
def KEY_RIGHTMETA : Nat := 126

/-- A raw input event: key code and value (pressed iff `value != 0`). -/
structure KeyEvent where
  code : Nat
  value : Nat
deriving DecidableEq, Repr

/-- A key-press event. -/
def press (k : Nat) : KeyEvent := { code := k, value := 1 }

/-- A key-release event. -/
def release (k : Nat) : KeyEvent := { code := k, value := 0 }

/-- A switch-engine invocation target. -/
inductive Target where
  | host
  | guest
deriving DecidableEq, Repr

/-- A recorded `switch.switch_to_*` invocation: target and the
`skip_optional` argument. -/
abbrev SwitchCall := Target × Bool

/-- The local state of `evdev_loop`: the `triggered`, `grabbed` and
`skip_optional` booleans and the `pressed_keys` dict (a total map with
default `false`, mirroring `pressed_keys.get(code, False)`). -/
structure EvState where
  triggered : Bool
  grabbed : Bool
  skip_optional : Bool
  pressed_keys : Nat → Bool

/-- The initial `evdev_loop` state: all flags `False`, `pressed_keys = {}`. -/
def evdev_init : EvState :=
  { triggered := false, grabbed := false, skip_optional := false,
    pressed_keys := fun _ => false }

/-- `pressed_keys[event.code] = event.value != 0`. -/
def updated_keys (s : EvState) (e : KeyEvent) : Nat → Bool :=
  fun k => if k = e.code then decide (e.value ≠ 0) else s.pressed_keys k

/-- `ctrls_pressed`: both ctrl keys register pressed. -/
def ctrls_pressed (pk : Nat → Bool) : Bool :=
  pk KEY_LEFTCTRL && pk KEY_RIGHTCTRL

/-- The meta-modifier check assigned to `skip_optional` while the combo is
held. -/
def metas_pressed (pk : Nat → Bool) : Bool :=
  pk KEY_LEFTMETA || pk KEY_RIGHTMETA

/-- The body of `evdev_loop`'s `for event in device.read()` loop for one
event: record the key state; when not grabbed, set `triggered` and re-derive
`skip_optional` while both ctrls are pressed, and on combo release with
`triggered` set, fire `switch_to_guest(skip_optional)` and set `grabbed`. -/
def evdev_step (s : EvState) (e : KeyEvent) : EvState × List SwitchCall :=
  let pk := updated_keys s e
  if s.grabbed then
    ({ s with pressed_keys := pk }, [])
  else if ctrls_pressed pk then
    ({ triggered := true, grabbed := s.grabbed,
       skip_optional := metas_pressed pk, pressed_keys := pk }, [])
  else if s.triggered then
    ({ triggered := false, grabbed := true,
       skip_optional := s.skip_optional, pressed_keys := pk },
     [(Target.guest, s.skip_optional)])
  else
    ({ s with pressed_keys := pk }, [])

/-- Process a batch of events delivered by one `device.read()`, collecting
the switch invocations in order. -/
def evdev_run (s : EvState) (es : List KeyEvent) :
    EvState × List SwitchCall :=
  es.foldl
    (fun acc e =>
      let r := evdev_step acc.1 e
      (r.1, acc.2 ++ r.2))
    (s, [])

/-- What one iteration of `evdev_loop`'s outer `while True` observes after
`select`: a batch of readable events, a `BlockingIOError` (no events; the
grab-probe outcome says whether `device.grab()` succeeded), or an `OSError`
(hard device loss; `failed_opens` counts the `evdev.InputDevice` re-open
attempts that raise `OSError` before one succeeds). -/
inductive LoopInput where
  | events (es : List KeyEvent)
  | blockingErr (grab_ok : Bool)
  | osError (failed_opens : Nat)
deriving Repr

/-- One iteration of `evdev_loop`'s outer loop: the resulting state, the
switch invocations, and the total seconds slept in `time.sleep(5)` calls.
The `OSError` branch re-opens the same device path until success, sleeping
5 seconds after each failed attempt, and touches none of the loop's local
variables.  The `BlockingIOError` branch, when grabbed, probes
`device.grab()`; on success it ungrabs, clears `grabbed` and fires
`switch_to_host()` (default `skip_optional=False`). -/
def evdev_loop_iter (s : EvState) (inp : LoopInput) :
    EvState × List SwitchCall × Nat :=
  match inp with
  | .events es =>
    let r := evdev_run s es
    (r.1, r.2, 0)
  | .blockingErr grab_ok =>
    if s.grabbed then
      if grab_ok then
        ({ s with grabbed := false }, [(Target.host, false)], 0)
      else (s, [], 0)
    else (s, [], 0)
  | .osError n => (s, [], 5 * n)

/-! ## Control endpoint (`app_switch`) -/

/-- `hmac.compare_digest` on two strings: constant-time, functionally string
equality. -/
def compare_digest (a b : String) : Bool := a == b

/-- The JSON body of a `/switch` request: the `"to"` field and the
`"skip_optional"` field, each possibly absent. -/
structure ReqBody where
  toField : Option String
  skipOptionalField : Option Bool
deriving DecidableEq, Repr

/-- The endpoint's reply: `flask.abort(code)` or the
`flask.jsonify({"success": ..., "error": ...})` body (HTTP 200). -/
inductive Response where
  | aborted (code : Nat)
  | jsonOk (success : Bool) (error : Option String)
deriving DecidableEq, Repr

/-- The HTTP status of a reply (`jsonOk` is a normal 200 response). -/
def Response.status : Response → Nat
  | .aborted code => code
  | .jsonOk _ _ => 200

/-- `app_switch`: authenticate via the `X-Secret` header when
`http.is_secure` (absent or non-matching secret aborts 403), validate the
body (missing body, missing `"to"` or a `"to"` outside `cases` aborts 400),
then invoke the selected switch method with
`request.json.get("skip_optional", False)`, catching any exception into the
`error` field of an always-successful 200 JSON reply.  The engine is
abstracted as a fallible function; the second component records the switch
invocations made. -/
def app_switch (c : Config) (engine : Target → Bool → Except String Unit)
    (secretHeader : Option String) (body : Option ReqBody) :
    Response × List SwitchCall :=
  if c.http.is_secure &&
      (match secretHeader with
       | none => true
       | some s => !(compare_digest c.http.secret s)) then
    (.aborted 403, [])
  else
    match body with
    | none => (.aborted 400, [])
    | some b =>
      match b.toField with
      | none => (.aborted 400, [])
      | some t =>
        if t = "host" ∨ t = "guest" then
          let target := if t = "host" then Target.host else Target.guest
          let skip := b.skipOptionalField.getD false
          match engine target skip with
          | .ok _ => (.jsonOk true none, [(target, skip)])
          | .error msg => (.jsonOk true (some msg), [(target, skip)])
        else (.aborted 400, [])

/-! ## Reconciliation lemmas -/

theorem liveIds_append (vm l : List Hostdev) :
    liveIds (vm ++ l) = liveIds vm ++ liveIds l := by
  simp [liveIds, get_devices, List.filter_append]

theorem liveIds_mk (ids : Nat × Nat) : liveIds [mk_hostdev ids] = [ids] := by
  simp [liveIds, get_devices, mk_hostdev, get_device_ids]

theorem mem_liveIds {vm : List Hostdev} {x : Nat × Nat} :
    x ∈ liveIds vm ↔ ∃ d ∈ vm, d.usb = true ∧ get_device_ids d = x := by
  simp only [liveIds, get_devices, List.mem_map, List.mem_filter]
  constructor
  · rintro ⟨d, ⟨hd, hu⟩, hx⟩; exact ⟨d, hd, hu, hx⟩
  · rintro ⟨d, hd, hu, hx⟩; exact ⟨d, ⟨hd, hu⟩, hx⟩

theorem get_device_by_ids_isSome {vm : List Hostdev} {ids : Nat × Nat} :
    (get_device_by_ids vm ids).isSome = true ↔ ids ∈ liveIds vm := by
  simp [get_device_by_ids, List.find?_isSome, liveIds, List.mem_map,
    get_devices]
  tauto

theorem attach_devices_split (devs : List (Nat × Nat)) :
    ∀ vm, (attach_devices vm devs).1
      = vm ++ ((attach_devices vm devs).2).map mk_hostdev := by
  induction devs with
  | nil => intro vm; simp [attach_devices]
  | cons ids rest ih =>
    intro vm
    cases h : get_device_by_ids vm ids with
    | some d => simp [attach_devices, h, ih vm]
    | none => simp [attach_devices, h, ih (vm ++ [mk_hostdev ids])]

theorem attach_devices_mem (devs : List (Nat × Nat)) :
    ∀ vm x, x ∈ liveIds (attach_devices vm devs).1
      ↔ x ∈ liveIds vm ∨ x ∈ devs := by
  induction devs with
  | nil => intro vm x; simp [attach_devices]
  | cons ids rest ih =>
    intro vm x
    cases h : get_device_by_ids vm ids with
    | some d =>
      have hmem : ids ∈ liveIds vm :=
        get_device_by_ids_isSome.mp (by simp [h])
      simp only [attach_devices, h, ih, List.mem_cons]
      constructor
      · rintro (hv | hr)
        · exact Or.inl hv
        · exact Or.inr (Or.inr hr)
      · rintro (hv | he | hr)
        · exact Or.inl hv
        · exact Or.inl (he ▸ hmem)
        · exact Or.inr hr
    | none =>
      simp only [attach_devices, h, ih, liveIds_append, liveIds_mk,
        List.mem_append, List.mem_singleton, List.mem_cons]
      tauto

theorem attach_devices_noop (devs : List (Nat × Nat)) :
    ∀ vm, (∀ ids ∈ devs, ids ∈ liveIds vm) →
      attach_devices vm devs = (vm, []) := by
  induction devs with
  | nil => intro vm _; rfl
  | cons ids rest ih =>
    intro vm h
    have hs : (get_device_by_ids vm ids).isSome = true :=
      get_device_by_ids_isSome.mpr (h ids (by simp))
    cases hq : get_device_by_ids vm ids with
    | none => rw [hq] at hs; simp at hs
    | some d =>
      simp [attach_devices, hq, ih vm (fun i hi => h i (by simp [hi]))]

theorem attach_devices_reqs_subset (devs : List (Nat × Nat)) :
    ∀ vm x, x ∈ (attach_devices vm devs).2 → x ∈ devs := by
  induction devs with
  | nil => intro vm x hx; simp [attach_devices] at hx
  | cons ids rest ih =>
    intro vm x hx
    cases h : get_device_by_ids vm ids with
    | some d =>
      rw [attach_devices, h] at hx
      exact List.mem_cons_of_mem _ (ih vm x hx)
    | none =>
      rw [attach_devices, h] at hx
      rcases List.mem_cons.mp hx with he | hr
      · exact he ▸ List.mem_cons_self _ _
      · exact List.mem_cons_of_mem _ (ih _ x hr)

theorem attach_devices_reqs_fresh (devs : List (Nat × Nat)) :
    ∀ vm x, x ∈ (attach_devices vm devs).2 → x ∉ liveIds vm := by
  induction devs with
  | nil => intro vm x hx; simp [attach_devices] at hx
  | cons ids rest ih =>
    intro vm x hx
    cases h : get_device_by_ids vm ids with
    | some d =>
      rw [attach_devices, h] at hx
      exact ih vm x hx
    | none =>
      rw [attach_devices, h] at hx
      rcases List.mem_cons.mp hx with he | hr
      · subst he
        intro hmem
        have := get_device_by_ids_isSome.mpr hmem
        rw [h] at this; simp at this
      · intro hmem
        exact ih _ x hr (by rw [liveIds_append]; exact List.mem_append_left _ hmem)

theorem attach_devices_fresh (devs : List (Nat × Nat)) :
    ∀ vm, devs.Nodup → (∀ x ∈ devs, x ∉ liveIds vm) →
      attach_devices vm devs = (vm ++ devs.map mk_hostdev, devs) := by
  induction devs with
  | nil => intro vm _ _; simp [attach_devices]
  | cons ids rest ih =>
    intro vm hnd hfresh
    have hnone : get_device_by_ids vm ids = none := by
      cases hq : get_device_by_ids vm ids with
      | none => rfl
      | some d =>
        exact absurd (get_device_by_ids_isSome.mp (by simp [hq]))
          (hfresh ids (by simp))
    have hrest : ∀ x ∈ rest, x ∉ liveIds (vm ++ [mk_hostdev ids]) := by
      intro x hx
      rw [liveIds_append, liveIds_mk]
      intro hmem
      rcases List.mem_append.mp hmem with hv | hi
      · exact hfresh x (List.mem_cons_of_mem _ hx) hv
      · rw [List.mem_singleton] at hi
        exact (List.nodup_cons.mp hnd).1 (hi ▸ hx)
    simp [attach_devices, hnone, ih _ (List.nodup_cons.mp hnd).2 hrest]

theorem detach_loop_eq (devs : List (Nat × Nat)) (l : List Hostdev) :
    ∀ vm, detach_loop devs vm l
      = (List.foldl (fun acc d => acc.erase d) vm
           (l.filter (fun d => decide (get_device_ids d ∈ devs))),
         l.filter (fun d => decide (get_device_ids d ∈ devs))) := by
  induction l with
  | nil => intro vm; rfl
  | cons dev rest ih =>
    intro vm
    by_cases h : get_device_ids dev ∈ devs
    · simp [detach_loop, h, ih]
    · simp [detach_loop, h, ih]

theorem foldl_erase_cons (d : Hostdev) (q : Hostdev → Bool) (hq : q d = false) :
    ∀ (l : List Hostdev), (∀ x ∈ l, q x = true) → ∀ vm,
      List.foldl (fun acc x => acc.erase x) (d :: vm) l
        = d :: List.foldl (fun acc x => acc.erase x) vm l := by
  intro l
  induction l with
  | nil => intro _ vm; rfl
  | cons x xs ih =>
    intro hl vm
    have hxd : d ≠ x := by
      intro he
      have := hl x (by simp)
      rw [← he, hq] at this
      cases this
    rw [List.foldl_cons, List.foldl_cons,
      List.erase_cons_tail (by simpa using hxd)]
    exact ih (fun y hy => hl y (by simp [hy])) (vm.erase x)

theorem foldl_erase_filter (q : Hostdev → Bool) :
    ∀ (vm : List Hostdev),
      List.foldl (fun acc x => acc.erase x) vm (vm.filter q)
        = vm.filter (fun d => !(q d)) := by
  intro vm
  induction vm with
  | nil => rfl
  | cons d rest ih =>
    by_cases h : q d = true
    · rw [List.filter_cons_of_pos h, List.foldl_cons, List.erase_cons_head,
        ih, List.filter_cons_of_neg (by simp [h])]
    · have hf : q d = false := by simpa using h
      rw [List.filter_cons_of_neg (by simp [hf]),
        foldl_erase_cons d q hf _ (fun x hx => List.of_mem_filter hx), ih,
        List.filter_cons_of_pos (by simp [hf])]

theorem detach_devices_snd (vm : List Hostdev) (devs : List (Nat × Nat)) :
    (detach_devices vm devs).2
      = (get_devices vm).filter (fun d => decide (get_device_ids d ∈ devs)) := by
  rw [detach_devices, detach_loop_eq]

theorem detach_devices_fst (vm : List Hostdev) (devs : List (Nat × Nat)) :
    (detach_devices vm devs).1
      = vm.filter (fun d => !(d.usb && decide (get_device_ids d ∈ devs))) := by
  rw [detach_devices, detach_loop_eq]
  show List.foldl _ vm ((vm.filter _).filter _) = _
  rw [List.filter_filter, foldl_erase_filter]
  exact List.filter_congr (fun d _ => by
    cases hu : d.usb <;> cases hp : decide (get_device_ids d ∈ devs) <;> simp [hu, hp])

theorem detach_devices_mem (vm : List Hostdev) (devs : List (Nat × Nat))
    (x : Nat × Nat) :
    x ∈ liveIds (detach_devices vm devs).1
      ↔ x ∈ liveIds vm ∧ x ∉ devs := by
  rw [detach_devices_fst]
  constructor
  · intro hx
    rcases mem_liveIds.mp hx with ⟨d, hd, hu, hidx⟩
    rcases List.mem_filter.mp hd with ⟨hdvm, hcond⟩
    have hp : decide (get_device_ids d ∈ devs) = false := by
      cases hp : decide (get_device_ids d ∈ devs)
      · rfl
      · rw [hu, hp] at hcond; cases hcond
    refine ⟨mem_liveIds.mpr ⟨d, hdvm, hu, hidx⟩, ?_⟩
    rw [← hidx]
    simpa using hp
  · rintro ⟨hx, hnd⟩
    rcases mem_liveIds.mp hx with ⟨d, hd, hu, hidx⟩
    refine mem_liveIds.mpr ⟨d, List.mem_filter.mpr ⟨hd, ?_⟩, hu, hidx⟩
    rw [hu]
    simp [hidx, hnd]

theorem attach_requests_append (a b : List Effect) :
    attach_requests (a ++ b) = attach_requests a ++ attach_requests b := by
  simp [attach_requests]

theorem detach_requests_append (a b : List Effect) :
    detach_requests (a ++ b) = detach_requests a ++ detach_requests b := by
  simp [detach_requests]

theorem attach_requests_map_attachReq (l : List (Nat × Nat)) :
    attach_requests (l.map Effect.attachReq) = l := by
  induction l with
  | nil => rfl
  | cons x xs ih => simpa [attach_requests] using ih

theorem attach_requests_map_detachReq (l : List Hostdev) :
    attach_requests (l.map Effect.detachReq) = [] := by
  simp [attach_requests]

theorem detach_requests_map_detachReq (l : List Hostdev) :
    detach_requests (l.map Effect.detachReq) = l := by
  induction l with
  | nil => rfl
  | cons x xs ih => simpa [detach_requests] using ih

theorem detach_requests_map_attachReq (l : List (Nat × Nat)) :
    detach_requests (l.map Effect.attachReq) = [] := by
  simp [detach_requests]

theorem attach_requests_map_display (l : List Display) (f : Display → Nat) :
    attach_requests (l.map (fun d => Effect.display d.bus d.feature (f d)))
      = [] := by
  simp [attach_requests]

theorem detach_requests_map_display (l : List Display) (f : Display → Nat) :
    detach_requests (l.map (fun d => Effect.display d.bus d.feature (f d)))
      = [] := by
  simp [detach_requests]

theorem attach_requests_map_shell (l : List String) :
    attach_requests (l.map Effect.shell) = [] := by
  simp [attach_requests]

theorem detach_requests_map_shell (l : List String) :
    detach_requests (l.map Effect.shell) = [] := by
  simp [detach_requests]

theorem switch_to_guest_fst (c : Config) (skip : Bool) (vm : List Hostdev) :
    (switch_to_guest c skip vm).1
      = (attach_devices vm
          (if skip then c.devices_essential else c.devices)).1 := rfl

theorem switch_to_host_fst (c : Config) (skip : Bool) (vm : List Hostdev) :
    (switch_to_host c skip vm).1
      = (detach_devices vm
          (if skip then c.devices_essential else c.devices)).1 := rfl

theorem switch_to_guest_attach_requests (c : Config) (skip : Bool)
    (vm : List Hostdev) :
    attach_requests (switch_to_guest c skip vm).2
      = (attach_devices vm
          (if skip then c.devices_essential else c.devices)).2 := by
  show attach_requests (_ ++ _ ++ _) = _
  rw [attach_requests_append, attach_requests_append,
    attach_requests_map_display, attach_requests_map_shell,
    attach_requests_map_attachReq]
  rfl

theorem switch_to_guest_detach_requests (c : Config) (skip : Bool)
    (vm : List Hostdev) :
    detach_requests (switch_to_guest c skip vm).2 = [] := by
  show detach_requests (_ ++ _ ++ _) = _
  rw [detach_requests_append, detach_requests_append,
    detach_requests_map_display, detach_requests_map_shell,
    detach_requests_map_attachReq]
  rfl

theorem switch_to_host_detach_requests (c : Config) (skip : Bool)
    (vm : List Hostdev) :
    detach_requests (switch_to_host c skip vm).2
      = (detach_devices vm
          (if skip then c.devices_essential else c.devices)).2 := by
  show detach_requests (_ ++ _ ++ _) = _
  rw [detach_requests_append, detach_requests_append,
    detach_requests_map_display, detach_requests_map_shell,
    detach_requests_map_detachReq]
  rfl

theorem switch_to_host_attach_requests (c : Config) (skip : Bool)
    (vm : List Hostdev) :
    attach_requests (switch_to_host c skip vm).2 = [] := by
  show attach_requests (_ ++ _ ++ _) = _
  rw [attach_requests_append, attach_requests_append,
    attach_requests_map_display, attach_requests_map_shell,
    attach_requests_map_detachReq]
  rfl

theorem devices_essential_sublist (c : Config) :
    c.devices_essential.Sublist c.devices :=
  (List.filter_sublist _).map _

/-! ## Claim theorems: switch engine -/

/-- Concrete configuration for the C1 counterexample: one configured device
(2, 2), no displays or commands. -/
def cfgC1 : Config :=
  { http := { is_secure := false, secret := "" },
    deviceData := [{ vendor := 2, product := 2, optionalKey := none }],
    displays := [], host_commands := [], guest_commands := [] }

/-- C1 (counterexample): the claim "after any successful switch_to_guest the
live attached USB device set equals exactly the configured requirement set,
for every starting live device set" is false: starting from a live set
holding the unconfigured USB device (1, 1), `switch_to_guest` leaves (1, 1)
attached, so the final live identity set {(1, 1), (2, 2)} is a strict
superset of the requirement set {(2, 2)}. -/
theorem C1_counterexample :
    ¬ (∀ x : Nat × Nat,
        x ∈ liveIds (switch_to_guest cfgC1 false
            [{ usb := true, vendor := 1, product := 1 }]).1
          ↔ x ∈ cfgC1.devices) := by
  intro h
  exact absurd ((h (1, 1)).mp (by decide)) (by decide)

/-- C1 (amended): after `switch_to_guest` with a given `skip_optional` flag
the live attached USB identity set equals the starting live set united with
the configured requirement set (full, or essential-only when the flag is
set); after `switch_to_host` it equals the starting live set minus the
requirement set.  It equals the requirement set exactly only when the
starting set lies inside it (guest direction). -/
theorem C1_amended (c : Config) (skip : Bool) (vm : List Hostdev)
    (x : Nat × Nat) :
    (x ∈ liveIds (switch_to_guest c skip vm).1
      ↔ x ∈ liveIds vm
        ∨ x ∈ (if skip then c.devices_essential else c.devices)) ∧
    (x ∈ liveIds (switch_to_host c skip vm).1
      ↔ x ∈ liveIds vm
        ∧ x ∉ (if skip then c.devices_essential else c.devices)) := by
  constructor
  · rw [switch_to_guest_fst]
    exact attach_devices_mem _ vm x
  · rw [switch_to_host_fst]
    exact detach_devices_mem vm _ x

/-- C2: `switch_to_guest(skip_optional=False)` is idempotent: a second call
on the resulting live set yields the same final hostdev list, issues no
attach request at all (in particular none for a device the first call
attached, and, the hypervisor being driven only through attach requests,
nothing for it to fail on), and the first call only appends fresh hostdevs —
devices already attached are left untouched. -/
theorem C2_idempotent (c : Config) (vm : List Hostdev) :
    (switch_to_guest c false (switch_to_guest c false vm).1).1
        = (switch_to_guest c false vm).1 ∧
    attach_requests
        (switch_to_guest c false (switch_to_guest c false vm).1).2 = [] ∧
    (switch_to_guest c false vm).1
        = vm ++ (attach_requests (switch_to_guest c false vm).2).map
            mk_hostdev ∧
    (∀ x ∈ attach_requests (switch_to_guest c false vm).2,
      x ∉ liveIds vm) := by
  have hall : ∀ ids ∈ c.devices, ids ∈ liveIds (switch_to_guest c false vm).1 := by
    intro ids hid
    rw [switch_to_guest_fst]
    exact (attach_devices_mem _ vm ids).mpr (Or.inr (by simpa using hid))
  have hnoop :
      attach_devices (switch_to_guest c false vm).1 c.devices
        = ((switch_to_guest c false vm).1, []) :=
    attach_devices_noop _ _ hall
  refine ⟨?_, ?_, ?_, ?_⟩
  · rw [switch_to_guest_fst]
    simpa using congrArg Prod.fst hnoop
  · rw [switch_to_guest_attach_requests]
    simpa using congrArg Prod.snd hnoop
  · rw [switch_to_guest_fst, switch_to_guest_attach_requests]
    simpa using attach_devices_split c.devices vm
  · intro x hx
    rw [switch_to_guest_attach_requests] at hx
    exact attach_devices_reqs_fresh _ vm x (by simpa using hx)

/-- C3: `switch_to_host(skip_optional=False)` issues detach requests exactly
for the live USB devices whose identity is in the full configured device
list (in snapshot order), issues no attach request, and every detach request
it issues names a device whose identity is in the configured list — live
devices outside the configuration are never touched. -/
theorem C3_complement (c : Config) (vm : List Hostdev) :
    detach_requests (switch_to_host c false vm).2
      = (get_devices vm).filter
          (fun d => decide (get_device_ids d ∈ c.devices)) ∧
    attach_requests (switch_to_host c false vm).2 = [] ∧
    (∀ d ∈ detach_requests (switch_to_host c false vm).2,
      get_device_ids d ∈ c.devices) := by
  have hsnd := detach_devices_snd vm c.devices
  refine ⟨?_, switch_to_host_attach_requests c false vm, ?_⟩
  · rw [switch_to_host_detach_requests]
    simpa using hsnd
  · intro d hd
    rw [switch_to_host_detach_requests] at hd
    have : d ∈ (get_devices vm).filter
        (fun d => decide (get_device_ids d ∈ c.devices)) := by
      rw [← hsnd]; simpa using hd
    simpa using (List.mem_filter.mp this).2

/-- C4: for a configured device list with pairwise-distinct identities and an
empty initial live set, `switch_to_guest(skip_optional=True)` issues attach
requests exactly for the essential identities (those whose entry lacks
`optional: true`) in configuration order, and issues no detach request — so
the non-essential devices receive no request at all. -/
theorem C4_partition (c : Config) (h : c.devices.Nodup) :
    attach_requests (switch_to_guest c true []).2 = c.devices_essential ∧
    detach_requests (switch_to_guest c true []).2 = [] := by
  have hnd : c.devices_essential.Nodup :=
    h.sublist (devices_essential_sublist c)
  have hfresh : ∀ x ∈ c.devices_essential, x ∉ liveIds [] := by
    intro x _ hx
    simp [liveIds, get_devices] at hx
  refine ⟨?_, switch_to_guest_detach_requests c true []⟩
  rw [switch_to_guest_attach_requests]
  simpa using congrArg Prod.snd (attach_devices_fresh _ [] hnd hfresh)

/-- Witness for C4: a two-device configuration, one essential (1, 2) and one
optional (3, 4); the guarded theorem applies and its hypothesis holds. -/
theorem C4_partition_witness :
    attach_requests (switch_to_guest
      { http := { is_secure := false, secret := "" },
        deviceData :=
          [{ vendor := 1, product := 2, optionalKey := none },
           { vendor := 3, product := 4, optionalKey := some true }],
        displays := [], host_commands := [], guest_commands := [] }
      true []).2
      = Config.devices_essential
          { http := { is_secure := false, secret := "" },
            deviceData :=
              [{ vendor := 1, product := 2, optionalKey := none },
               { vendor := 3, product := 4, optionalKey := some true }],
            displays := [], host_commands := [], guest_commands := [] } ∧
    detach_requests (switch_to_guest
      { http := { is_secure := false, secret := "" },
        deviceData :=
          [{ vendor := 1, product := 2, optionalKey := none },
           { vendor := 3, product := 4, optionalKey := some true }],
        displays := [], host_commands := [], guest_commands := [] }
      true []).2 = [] :=
  C4_partition _ (by decide)

/-! ## Claim theorems: hotkey monitor -/

/-- C5: from the idle state, the event sequence press(leftCtrl),
press(rightCtrl), release(leftCtrl) — both ctrl keys never simultaneously
released — produces at most one switch-to-guest invocation (the combo
release fires exactly once; the individual key events fire nothing). -/
theorem C5_debounce :
    ((evdev_run evdev_init
        [press KEY_LEFTCTRL, press KEY_RIGHTCTRL,
         release KEY_LEFTCTRL]).2.countP
      (fun call => decide (call.1 = Target.guest))) ≤ 1 := by
  decide

/-- C6 (counterexample): pressing leftMeta while the ctrl combo is held and
releasing it again before the combo release does NOT leave
`skip_optional = true`: on the meta-release event the combo is still down,
so `skip_optional` is re-evaluated to `false`, and the switch call fired by
the combo release receives `skip_optional = false`. -/
theorem C6_counterexample :
    ¬ (∀ call ∈ (evdev_run evdev_init
        [press KEY_LEFTCTRL, press KEY_RIGHTCTRL, press KEY_LEFTMETA,
         release KEY_LEFTMETA, release KEY_LEFTCTRL]).2,
        call.2 = true) := by
  decide

/-- C6 (amended): while not grabbed, every event after which both ctrl keys
register pressed re-derives `skip_optional` from the meta keys' state at
that event — so a meta press before the combo release yields
`skip_optional = true` only while meta stays held, and a meta release while
the combo is still held clears it; the combo-release event passes the
stored `skip_optional` value to the guest-switch invocation. -/
theorem C6_amended (s : EvState) (e : KeyEvent) (hg : s.grabbed = false) :
    (ctrls_pressed (updated_keys s e) = true →
      (evdev_step s e).1.skip_optional = metas_pressed (updated_keys s e)) ∧
    (ctrls_pressed (updated_keys s e) = false → s.triggered = true →
      (evdev_step s e).2 = [(Target.guest, s.skip_optional)]) := by
  constructor
  · intro hc
    simp [evdev_step, hg, hc]
  · intro hc ht
    simp [evdev_step, hg, hc, ht]

/-- Concrete state for the C6 witness: combo and meta held, `triggered` and
`skip_optional` set, not grabbed. -/
def evStateC6 : EvState :=
  { triggered := true, grabbed := false, skip_optional := true,
    pressed_keys := fun k =>
      decide (k = KEY_LEFTCTRL) || decide (k = KEY_RIGHTCTRL) ||
        decide (k = KEY_LEFTMETA) }

/-- Witness for C6 (amended) at the meta-release event: the combo stays
down, so the first conjunct applies (and indeed re-evaluates
`skip_optional` to the now-false meta state). -/
theorem C6_amended_witness :
    (ctrls_pressed (updated_keys evStateC6 (release KEY_LEFTMETA)) = true →
      (evdev_step evStateC6 (release KEY_LEFTMETA)).1.skip_optional
        = metas_pressed (updated_keys evStateC6 (release KEY_LEFTMETA))) ∧
    (ctrls_pressed (updated_keys evStateC6 (release KEY_LEFTMETA)) = false →
      evStateC6.triggered = true →
      (evdev_step evStateC6 (release KEY_LEFTMETA)).2
        = [(Target.guest, evStateC6.skip_optional)]) :=
  C6_amended evStateC6 (release KEY_LEFTMETA) rfl

/-- C7 (counterexample): the reconnect path after a hard device error does
NOT reset the pressed-key set: starting with leftCtrl recorded as pressed,
after an `OSError` iteration with two failed re-open attempts the pressed
map is not empty — leftCtrl is still recorded as pressed. -/
theorem C7_counterexample :
    ¬ (∀ k, ((evdev_loop_iter
        { triggered := false, grabbed := false, skip_optional := false,
          pressed_keys := fun k => decide (k = KEY_LEFTCTRL) }
        (.osError 2)).1).pressed_keys k = false) := by
  intro h
  have hk := h KEY_LEFTCTRL
  simp [evdev_loop_iter] at hk

/-- C7 (amended): on a hard read error the monitor re-opens the same device
path with a 5-second sleep after each failed attempt (unbounded: `n` failed
attempts cost `5 * n` seconds and nothing else happens) until an open
succeeds, then resumes event reading with the entire loop state — in
particular the pressed-key set — retained unchanged, not reset. -/
theorem C7_amended (s : EvState) (n : Nat) :
    evdev_loop_iter s (.osError n) = (s, [], 5 * n) := rfl

/-! ## Claim theorems: control endpoint and configuration -/

/-- C8: with authentication enabled, any request whose `X-Secret` header is
absent, or whose secret differs from the configured one in any way
(including a single trailing character), is answered with `abort(403)` and
the switch engine is never invoked — no display, command, attach or detach
call can occur, since all of them are reachable only through a switch
invocation. -/
theorem C8_auth_reject (c : Config)
    (engine : Target → Bool → Except String Unit)
    (hdr : Option String) (body : Option ReqBody)
    (hs : c.http.is_secure = true)
    (hh : hdr = none ∨ ∃ s, hdr = some s ∧ s ≠ c.http.secret) :
    app_switch c engine hdr body = (.aborted 403, []) := by
  unfold app_switch
  rcases hh with h | ⟨s, hsome, hne⟩
  · simp [h, hs]
  · simp [hsome, hs, compare_digest, Ne.symm hne]

/-- Witness for C8: configured secret "hunter2", presented secret "hunter2x"
(one extra trailing character): rejected with 403, no engine call. -/
theorem C8_auth_reject_witness :
    app_switch
      { http := { is_secure := true, secret := "hunter2" },
        deviceData := [], displays := [],
        host_commands := [], guest_commands := [] }
      (fun _ _ => .ok ()) (some "hunter2x")
      (some { toField := some "guest", skipOptionalField := none })
      = (.aborted 403, []) :=
  C8_auth_reject _ _ _ _ rfl (Or.inr ⟨"hunter2x", rfl, by decide⟩)

/-- C9: every authenticated request with a valid `"to"` field is answered
with a status-200 JSON body carrying a success flag and an `error` field
that is `null` when the engine call returns and the exception text when it
raises; the invocation is made exactly once in either case and the endpoint
never fails the HTTP-level call because of an engine error. -/
theorem C9_endpoint (c : Config)
    (engine : Target → Bool → Except String Unit)
    (hdr : Option String) (b : ReqBody) (t : String)
    (hauth : c.http.is_secure = false
      ∨ ∃ s, hdr = some s ∧ s = c.http.secret)
    (ht : b.toField = some t) (hv : t = "host" ∨ t = "guest") :
    (app_switch c engine hdr (some b)).1.status = 200 ∧
    app_switch c engine hdr (some b)
      = (match engine (if t = "host" then Target.host else Target.guest)
              (b.skipOptionalField.getD false) with
         | .ok _ => (Response.jsonOk true none,
             [(if t = "host" then Target.host else Target.guest,
               b.skipOptionalField.getD false)])
         | .error msg => (Response.jsonOk true (some msg),
             [(if t = "host" then Target.host else Target.guest,
               b.skipOptionalField.getD false)])) := by
  have happ : app_switch c engine hdr (some b)
      = (match engine (if t = "host" then Target.host else Target.guest)
              (b.skipOptionalField.getD false) with
         | .ok _ => (Response.jsonOk true none,
             [(if t = "host" then Target.host else Target.guest,
               b.skipOptionalField.getD false)])
         | .error msg => (Response.jsonOk true (some msg),
             [(if t = "host" then Target.host else Target.guest,
               b.skipOptionalField.getD false)])) := by
    rcases hauth with hsf | ⟨s, hsome, hseq⟩
    · unfold app_switch
      simp only [hsf, Bool.false_and, Bool.false_eq_true, if_false, ht,
        if_pos hv]
    · subst hsome
      subst hseq
      unfold app_switch
      simp only [compare_digest, beq_self_eq_true, Bool.not_true,
        Bool.and_false, Bool.false_eq_true, if_false, ht, if_pos hv]
  refine ⟨?_, happ⟩
  rw [happ]
  cases engine (if t = "host" then Target.host else Target.guest)
      (b.skipOptionalField.getD false) <;> rfl

/-- Witness for C9: auth disabled, a guest request with
`skip_optional = true`, and an engine that raises: the endpoint still
returns the 200 JSON body with the exception text in `error`. -/
theorem C9_endpoint_witness :
    (app_switch
      { http := { is_secure := false, secret := "" },
        deviceData := [], displays := [],
        host_commands := [], guest_commands := [] }
      (fun _ _ => .error "libvirt: device not found") none
      (some { toField := some "guest",
              skipOptionalField := some true })).1.status = 200 ∧
    app_switch
      { http := { is_secure := false, secret := "" },
        deviceData := [], displays := [],
        host_commands := [], guest_commands := [] }
      (fun _ _ => .error "libvirt: device not found") none
      (some { toField := some "guest", skipOptionalField := some true })
      = (match (fun (_ : Target) (_ : Bool) =>
            (.error "libvirt: device not found" : Except String Unit))
            (if "guest" = "host" then Target.host else Target.guest)
            ((some true : Option Bool).getD false) with
         | .ok _ => (Response.jsonOk true none,
             [(if "guest" = "host" then Target.host else Target.guest,
               (some true : Option Bool).getD false)])
         | .error msg => (Response.jsonOk true (some msg),
             [(if "guest" = "host" then Target.host else Target.guest,
               (some true : Option Bool).getD false)])) :=
  C9_endpoint _ _ none _ "guest" (Or.inl rfl) rfl (Or.inr rfl)

/-- C10: the essential identity list is a sublist (hence subset) of the full
configured identity list; an entry without an `optional` key is essential;
and a `skip_optional = true` transition only ever issues attach / detach
requests whose identity lies in the full configured list. -/
theorem C10_essential_subset (c : Config) (vm : List Hostdev)
    (d : DeviceEntry) (hd : d ∈ c.deviceData) (hopt : d.optionalKey = none) :
    (∀ x ∈ c.devices_essential, x ∈ c.devices) ∧
    (d.vendor, d.product) ∈ c.devices_essential ∧
    (∀ x ∈ attach_requests (switch_to_guest c true vm).2,
      x ∈ c.devices) ∧
    (∀ dv ∈ detach_requests (switch_to_host c true vm).2,
      get_device_ids dv ∈ c.devices) := by
  have hsub : ∀ x ∈ c.devices_essential, x ∈ c.devices :=
    fun x hx => (devices_essential_sublist c).subset hx
  refine ⟨hsub, ?_, ?_, ?_⟩
  · refine List.mem_map.mpr ⟨d, List.mem_filter.mpr ⟨hd, ?_⟩, rfl⟩
    simp [hopt]
  · intro x hx
    rw [switch_to_guest_attach_requests] at hx
    exact hsub x (attach_devices_reqs_subset _ vm x (by simpa using hx))
  · intro dv hdv
    rw [switch_to_host_detach_requests, detach_devices_snd] at hdv
    have h2 := (List.mem_filter.mp hdv).2
    exact hsub _ (by simpa using h2)

/-- Concrete configuration for the C10 witness: one entry without an
`optional` key. -/
def cfgC10 : Config :=
  { http := { is_secure := false, secret := "" },
    deviceData := [{ vendor := 7, product := 8, optionalKey := none }],
    displays := [], host_commands := [], guest_commands := [] }

/-- The single device entry of `cfgC10`. -/
def entC10 : DeviceEntry := { vendor := 7, product := 8, optionalKey := none }

/-- Witness for C10: a configuration whose single entry lacks the
`optional` key. -/
theorem C10_essential_subset_witness :
    (∀ x ∈ cfgC10.devices_essential, x ∈ cfgC10.devices) ∧
    (entC10.vendor, entC10.product) ∈ cfgC10.devices_essential ∧
    (∀ x ∈ attach_requests (switch_to_guest cfgC10 true []).2,
      x ∈ cfgC10.devices) ∧
    (∀ dv ∈ detach_requests (switch_to_host cfgC10 true []).2,
      get_device_ids dv ∈ cfgC10.devices) :=
  C10_essential_subset cfgC10 [] entC10 (by decide) rfl
